import Mathlib

/-!
Shallow embedding of two Fluvio source files:
  crates/fluvio-sc/src/cli.rs   (ScOpt, RunMode, TlsConfig, acceptor building)
  crates/fluvio-cli/src/lib.rs  (plugin lookup and external subcommand dispatch)
Rust machine types are modelled as follows: `PathBuf`/`&Path` as `String`,
`std::io::Error` as a kind/message record, fallible calls as `Except`.
External collaborators that the source calls but that are not part of the
two files (policy file loading, the kubernetes config loader, the openssl
acceptor builder, the `which` crate, process spawning) are modelled as
explicit function parameters or, where the spec fixes their behaviour, as
definitions marked `Modelled from the spec`.
-/

/-- Rust `PathBuf` / `&Path`, modelled as a plain string path. -/
abbrev PathBuf := String

/-- Rust `std::io::ErrorKind`: only the variants the source constructs. -/
inductive ErrorKind where
  | NotFound
  | Other
deriving DecidableEq, Repr

/-- Rust `std::io::Error` as constructed by `IoError::new(kind, msg)`. -/
structure IoErr where
  kind : ErrorKind
  msg : String
deriving DecidableEq, Repr

/-- Modelled from the spec: `BasicRbacPolicy` lives in
`crate::services::auth::basic`, which is not among the source files; the spec
treats a policy purely as the parsed content of a policy file, so it is
modelled as an opaque payload. -/
structure BasicRbacPolicy where
  payload : String
deriving DecidableEq, Repr

/-- Modelled from the spec: `ScError` (crate::error) is not among the source
files; `as_sc_config` returns `IoError` and `get_sc_and_k8_config` converts it
via `?` into `ScError`, so the conversion constructor is all that is needed. -/
inductive ScError where
  | io (e : IoErr)
deriving DecidableEq, Repr

/-- Modelled from the spec: `TLS_SERVER_SECRET_NAME` is the well-known default
secret identifier constant from `fluvio_types::defaults`, which is not among
the source files. Its exact text is irrelevant to every property proved here;
only that it is one fixed constant. -/
def TLS_SERVER_SECRET_NAME : String := "fluvio-tls"

/-- Rust `SslVerifyMode` from `fluvio_future::openssl`: the source only ever
sets `PEER`; the builder default is the anonymous mode. -/
inductive SslVerifyMode where
  | NONE
  | PEER
deriving DecidableEq, Repr

/-- Modelled from the spec: the openssl acceptor builder is an external
cryptographic provider; per the spec the factory only validates and assembles
inputs, so the builder is modelled as a pure recorder of the configuration
passed to it. -/
structure TlsAcceptorBuilder where
  verify_mode : SslVerifyMode
  ca_file : Option String
  cert_file : Option String
  key_file : Option String
deriving DecidableEq, Repr

/-- Result of `builder.build()`: the assembled acceptor, carrying the recorded
configuration. -/
structure TlsAcceptor where
  config : TlsAcceptorBuilder
deriving DecidableEq, Repr

/-- Rust `TlsAcceptor::builder()` (external provider, modelled as a pure
recorder starting from the anonymous defaults). -/
def TlsAcceptor.builder : TlsAcceptorBuilder :=
  { verify_mode := .NONE, ca_file := none, cert_file := none, key_file := none }

/-- Rust `with_ssl_verify_mode` on the builder. -/
def TlsAcceptorBuilder.with_ssl_verify_mode (b : TlsAcceptorBuilder)
    (m : SslVerifyMode) : TlsAcceptorBuilder :=
  { b with verify_mode := m }

/-- Rust `with_ca_from_pem_file` on the builder. -/
def TlsAcceptorBuilder.with_ca_from_pem_file (b : TlsAcceptorBuilder)
    (p : String) : TlsAcceptorBuilder :=
  { b with ca_file := some p }

/-- Rust `with_certifiate_and_key_from_pem_files` on the builder (the
misspelling is the source name). -/
def TlsAcceptorBuilder.with_certifiate_and_key_from_pem_files
    (b : TlsAcceptorBuilder) (crt key : String) : TlsAcceptorBuilder :=
  { b with cert_file := some crt, key_file := some key }

/-- Rust `builder.build()`. -/
def TlsAcceptorBuilder.build (b : TlsAcceptorBuilder) : TlsAcceptor :=
  ⟨b⟩

/-- Rust struct `TlsConfig` from fluvio-sc cli.rs. -/
structure TlsConfig where
  tls : Bool
  server_cert : Option String
  server_key : Option String
  enable_client_cert : Bool
  ca_cert : Option String
  bind_non_tls_public : Option String
  secret_name : Option String
deriving DecidableEq, Repr

/-- Rust `TlsConfig::default()` (derived `Default`). -/
def TlsConfig.default : TlsConfig :=
  { tls := false, server_cert := none, server_key := none,
    enable_client_cert := false, ca_cert := none,
    bind_non_tls_public := none, secret_name := none }

/-- Rust `TlsConfig::try_build_tls_acceptor` from fluvio-sc cli.rs. The
external builder steps are infallible in the model (see
`TlsAcceptorBuilder`); the validation logic — which field is required when,
and which error each absence produces — is translated exactly. -/
def TlsConfig.try_build_tls_acceptor (c : TlsConfig) :
    Except IoErr TlsAcceptor :=
  match c.server_cert with
  | none => Except.error ⟨ErrorKind.NotFound, "missing server cert"⟩
  | some server_crt_path =>
    match c.server_key with
    | none => Except.error ⟨ErrorKind.NotFound, "missing server key"⟩
    | some server_key_path =>
      let builder_step : Except IoErr TlsAcceptorBuilder :=
        if c.enable_client_cert then
          match c.ca_cert with
          | none => Except.error ⟨ErrorKind.NotFound, "missing ca cert"⟩
          | some ca_path =>
            Except.ok
              ((TlsAcceptor.builder.with_ssl_verify_mode
                SslVerifyMode.PEER).with_ca_from_pem_file ca_path)
        else
          Except.ok TlsAcceptor.builder
      match builder_step with
      | .error e => Except.error e
      | .ok builder =>
        Except.ok
          ((builder.with_certifiate_and_key_from_pem_files server_crt_path
              server_key_path).build)

/-- Modelled from the spec: `ScConfig` (crate::config) is not among the source
files. Only the fields that `as_sc_config` assigns are modelled; the spec says
the build starts from a fully-defaulted config, and no claim depends on the
default endpoint texts. -/
structure ScConfig where
  public_endpoint : String
  private_endpoint : String
  x509_auth_scopes : Option PathBuf
  white_list : List String
  read_only_metadata : Bool
deriving DecidableEq, Repr

/-- Modelled from the spec: `ScConfig::default()`; the concrete default
endpoint strings are not in the source files and no claim depends on them. -/
def ScConfig.default : ScConfig :=
  { public_endpoint := "0.0.0.0:9003", private_endpoint := "0.0.0.0:9004",
    x509_auth_scopes := none, white_list := [], read_only_metadata := false }

/-- Rust struct `ScOpt` from fluvio-sc cli.rs. -/
structure ScOpt where
  «local» : Option PathBuf
  k8 : Bool
  bind_public : Option String
  bind_private : Option String
  «namespace» : Option String
  tls : TlsConfig
  x509_auth_scopes : Option PathBuf
  auth_policy : Option PathBuf
  white_list : List String
  read_only : Option PathBuf
deriving DecidableEq, Repr

/-- Rust `ScOpt::default()` (derived `Default`). -/
def ScOpt.default : ScOpt :=
  { «local» := none, k8 := false, bind_public := none, bind_private := none,
    «namespace» := none, tls := TlsConfig.default, x509_auth_scopes := none,
    auth_policy := none, white_list := [], read_only := none }

/-- Rust enum `RunMode` from fluvio-sc cli.rs (paths carried by value rather
than by reference). -/
inductive RunMode where
  | Local (metadata : PathBuf)
  | ReadOnly (path : PathBuf)
  | K8s
deriving DecidableEq, Repr

/-- Rust `ScOpt::mode` from fluvio-sc cli.rs: the three-way match on
`(local, read_only, k8)`. -/
def ScOpt.mode (self : ScOpt) : RunMode :=
  match self.«local», self.read_only, self.k8 with
  | some metadata, _, _ => RunMode.Local metadata
  | none, some path, _ => RunMode.ReadOnly path
  | none, none, _ => RunMode.K8s

/-- Rust `ScOpt::as_sc_config` from fluvio-sc cli.rs. The call
`BasicRbacPolicy::try_from(p)` reads the policy file; that file system
interaction is abstracted as the `load_policy` parameter (the spec: parsing a
supplied policy file whose failure is fatal). Everything else is a direct
translation of the field-by-field construction. -/
def ScOpt.as_sc_config (self : ScOpt)
    (load_policy : PathBuf → Except IoErr BasicRbacPolicy) :
    Except IoErr ((ScConfig × Option BasicRbacPolicy) ×
      Option (String × TlsConfig)) :=
  let config := ScConfig.default
  let config := { config with
    public_endpoint := self.bind_public.getD config.public_endpoint }
  let config := { config with
    private_endpoint := self.bind_private.getD config.private_endpoint }
  let config := { config with
    x509_auth_scopes := self.x509_auth_scopes,
    white_list := self.white_list,
    read_only_metadata := self.read_only.isSome }
  let policy_step : Except IoErr (Option BasicRbacPolicy) :=
    match self.auth_policy with
    | some p => Except.map some (load_policy p)
    | none => Except.ok none
  match policy_step with
  | .error e => Except.error e
  | .ok policy =>
    let tls := self.tls
    if tls.tls then
      let proxy_addr := config.public_endpoint
      match tls.bind_non_tls_public with
      | none =>
        Except.error
          ⟨ErrorKind.NotFound, "non tls addr for public must be specified"⟩
      | some non_tls_addr =>
        let config := { config with public_endpoint := non_tls_addr }
        let tls := { tls with
          secret_name := some (tls.secret_name.getD TLS_SERVER_SECRET_NAME) }
        Except.ok ((config, policy), some (proxy_addr, tls))
    else
      Except.ok ((config, policy), none)

/-- Rust `K8Config` from the external k8_client crate: only the namespace
accessor is used by the source. -/
structure K8Config where
  «namespace» : String
deriving DecidableEq, Repr

/-- Outcome of `get_sc_and_k8_config`: the source calls
`K8Config::load().expect("no k8 config founded")`, so a failed load is a
process abort (panic), distinct from the function returning `Err(ScError)`. -/
inductive K8ConfigOutcome where
  | panicked (msg : String)
  | err (e : ScError)
  | ok (cfg : ScConfig × Option BasicRbacPolicy) (k8 : K8Config)
      (tls_out : Option (String × TlsConfig))
deriving DecidableEq, Repr

/-- Whether the outcome is the function returning a `ScError` value. -/
def K8ConfigOutcome.isScErr : K8ConfigOutcome → Bool
  | .err _ => true
  | _ => false

/-- Whether the outcome produced a config. -/
def K8ConfigOutcome.producedConfig : K8ConfigOutcome → Bool
  | .ok _ _ _ => true
  | _ => false

/-- Namespace defaulting step of `get_sc_and_k8_config`: if no namespace was
supplied, take the one from the kubernetes config. -/
def ScOpt.resolve_namespace (self : ScOpt) (k8_config : K8Config) : ScOpt :=
  if self.«namespace».isNone then
    { self with «namespace» := some k8_config.«namespace» }
  else self

/-- Rust `ScOpt::get_sc_and_k8_config` from fluvio-sc cli.rs.
`K8Config::load()` is external; its result is abstracted as the `k8_load`
parameter (`none` = the source cannot be loaded, on which the source panics
via `.expect`). -/
def ScOpt.get_sc_and_k8_config (self : ScOpt) (k8_load : Option K8Config)
    (load_policy : PathBuf → Except IoErr BasicRbacPolicy) : K8ConfigOutcome :=
  match k8_load with
  | none => K8ConfigOutcome.panicked "no k8 config founded"
  | some k8_config =>
    let self := self.resolve_namespace k8_config
    match self.as_sc_config load_policy with
    | .error e => K8ConfigOutcome.err (ScError.io e)
    | .ok (cfg, tls_out) => K8ConfigOutcome.ok cfg k8_config tls_out

/-- Boolean success test for `Except`. -/
def exceptIsOk : Except ε α → Bool
  | .ok _ => true
  | .error _ => false

/-- Whether the `BasicRbacPolicy::try_from` step of `as_sc_config` succeeds
for the given options under the given policy-file environment: vacuous when no
policy path is supplied. -/
def policyResolves (o : ScOpt)
    (load_policy : PathBuf → Except IoErr BasicRbacPolicy) : Prop :=
  match o.auth_policy with
  | none => True
  | some p => exceptIsOk (load_policy p) = true

/-- Rust `std::process::ExitStatus` as the dispatcher observes it: `code()` is
`None` exactly when the child was terminated by a signal on unix; `signal()`
is the unix extension accessor. -/
structure ExitStatus where
  code : Option Int
  signal : Option Int
deriving DecidableEq, Repr

/-- Termination descriptor of `process_external_subcommand`: the source ends
the parent process with `std::process::exit`, modelled (per the spec design
note) as a pure descriptor applied by a thin outer shell. `notFound` and
`exited`/`signaled` carry the exit code the parent uses; `launchFailure` is
the only outcome returned as an error (`Err`) to the caller; `completed` is
the `Ok(())` fall-through; `badInvocation` models the panic of
`args.remove(0)` on an empty argument vector (clap never produces one). -/
inductive DispatchOutcome where
  | badInvocation
  | notFound (msg : String) (exit_code : Int)
  | launchFailure (e : IoErr)
  | exited (code : Int)
  | signaled (msg : String) (code : Int)
  | completed
deriving DecidableEq, Repr

/-- Whether the dispatch outcome is an error returned to the caller (only a
launch failure is; a signal or a missing plugin is not). -/
def DispatchOutcome.isError : DispatchOutcome → Bool
  | .launchFailure _ => true
  | _ => false

/-- Rust `find_plugin` from fluvio-cli lib.rs. The external `which` crate is
abstracted: `whch name` is the system search-path lookup `which::which(name)`
and `whch_in name dir` is `which::which_in(name, Some(dir), ".")`; a stage
whose prerequisite directory is unresolvable (`self_dir` or `ext_dir` is
`none`) yields no match, exactly as `which_in` with no paths finds nothing.
The source converts the final `Result` with `.ok()`, hence the `Option`
return: no match is an empty result, never an error. -/
def find_plugin (name : String) (whch : String → Option PathBuf)
    (whch_in : String → PathBuf → Option PathBuf)
    (self_dir : Option PathBuf) (ext_dir : Option PathBuf) : Option PathBuf :=
  (whch name).orElse fun _ =>
    (self_dir.bind (whch_in name)).orElse fun _ =>
      ext_dir.bind (whch_in name)

/-- Tail of `process_external_subcommand` (fluvio-cli lib.rs, after the
launch): the `?` on `.status()` makes a spawn failure an error return; a
normal exit code becomes the parent exit code; otherwise, on unix, a signal
is printed and becomes the parent exit code; the remaining case falls through
to `Ok(())`. -/
def wait_and_exit (st : Except IoErr ExitStatus) : DispatchOutcome :=
  match st with
  | .error e => DispatchOutcome.launchFailure e
  | .ok status =>
    match status.code with
    | some code => DispatchOutcome.exited code
    | none =>
      match status.signal with
      | some s =>
        DispatchOutcome.signaled
          ("Extension killed via " ++ toString s ++ " signal") s
      | none => DispatchOutcome.completed

/-- Rust `process_external_subcommand` from fluvio-cli lib.rs. External
collaborators are parameters: `find` is the plugin lookup (`find_plugin`
applied to its environment), `ext_dir_res` is `fluvio_extensions_dir()`, and
`run` is `Command::new(path).args(args).status()`. The returned descriptor
records the printed diagnostic and the exit code the parent adopts. -/
def process_external_subcommand (args : List String)
    (find : String → Option PathBuf) (ext_dir_res : Except IoErr PathBuf)
    (run : PathBuf → List String → Except IoErr ExitStatus) :
    DispatchOutcome :=
  match args with
  | [] => DispatchOutcome.badInvocation
  | cmd :: rest =>
    let subcommand := "fluvio-" ++ cmd
    match find subcommand with
    | none =>
      match ext_dir_res with
      | .ok fluvio_dir =>
        DispatchOutcome.notFound
          ("Unable to find plugin " ++ subcommand ++
            ". Make sure it is installed in " ++ fluvio_dir ++ ".") 1
      | .error _ =>
        DispatchOutcome.notFound
          ("Unable to find plugin " ++ subcommand ++
            ". Make sure it is in your PATH.") 1
    | some subcommand_path => wait_and_exit (run subcommand_path rest)

/-- C3: mode selection obeys the fixed precedence: a present local metadata
path yields `Local` of that path regardless of the read-only path and the k8
flag; otherwise a present read-only path yields `ReadOnly` of that path
regardless of the k8 flag; otherwise the result is the k8 (cluster) mode.
Quantifying over an arbitrary `ScOpt` and overriding only the relevant fields
makes "regardless of the other inputs" literal. -/
theorem mode_precedence (o : ScOpt) (p q : PathBuf) :
    ScOpt.mode { o with «local» := some p } = RunMode.Local p ∧
    ScOpt.mode { o with «local» := none, read_only := some q } =
      RunMode.ReadOnly q ∧
    ScOpt.mode { o with «local» := none, read_only := none } = RunMode.K8s :=
  ⟨rfl, rfl, rfl⟩

/-- C2: with tls enabled and no non-tls public bind address,
`as_sc_config` never returns a config: whatever the remaining options and the
policy-file environment, the result is an error. -/
theorem as_sc_config_tls_missing_bind_err (o : ScOpt)
    (load_policy : PathBuf → Except IoErr BasicRbacPolicy)
    (htls : o.tls.tls = true) (hbind : o.tls.bind_non_tls_public = none) :
    exceptIsOk (o.as_sc_config load_policy) = false := by
  unfold ScOpt.as_sc_config
  cases hpol : o.auth_policy with
  | none =>
    simp only [htls, hbind]
    rfl
  | some p =>
    cases hload : load_policy p with
    | error e =>
      simp only [hload]
      rfl
    | ok v =>
      simp only [htls, hbind, hload]
      rfl

/-- C2 witness: a concrete option set with tls on and no non-tls bind
address is rejected. -/
theorem as_sc_config_tls_missing_bind_err_witness :
    exceptIsOk (ScOpt.as_sc_config
      { ScOpt.default with
          bind_public := some "0.0.0.0:9003",
          tls := { TlsConfig.default with tls := true } }
      (fun _ => Except.error ⟨ErrorKind.Other, "unused"⟩)) = false :=
  as_sc_config_tls_missing_bind_err
    { ScOpt.default with
        bind_public := some "0.0.0.0:9003",
        tls := { TlsConfig.default with tls := true } }
    (fun _ => Except.error ⟨ErrorKind.Other, "unused"⟩) rfl rfl

/-- C7: with tls disabled and both bind addresses supplied, any config the
build returns carries exactly the supplied public and private endpoints, and
the TLS side-output is empty. -/
theorem as_sc_config_no_tls_frame (o : ScOpt) (pa pb : String)
    (load_policy : PathBuf → Except IoErr BasicRbacPolicy)
    (htls : o.tls.tls = false) (hp : o.bind_public = some pa)
    (hq : o.bind_private = some pb) :
    ∀ cfg policy side,
      o.as_sc_config load_policy = Except.ok ((cfg, policy), side) →
      cfg.public_endpoint = pa ∧ cfg.private_endpoint = pb ∧ side = none := by
  intro cfg policy side h
  unfold ScOpt.as_sc_config at h
  cases hpol : o.auth_policy with
  | none =>
    simp only [hpol, hp, hq, htls, Bool.false_eq_true, if_false] at h
    obtain ⟨⟨hcfg, -⟩, hside⟩ := by
      simpa only [Except.ok.injEq, Prod.mk.injEq] using h
    subst hcfg
    exact ⟨rfl, rfl, hside.symm⟩
  | some p =>
    cases hload : load_policy p with
    | error e =>
      simp only [hpol, hload, Except.map] at h
      exact Except.noConfusion h
    | ok v =>
      simp only [hpol, hload, hp, hq, htls, Except.map, Bool.false_eq_true,
        if_false] at h
      obtain ⟨⟨hcfg, -⟩, hside⟩ := by
        simpa only [Except.ok.injEq, Prod.mk.injEq] using h
      subst hcfg
      exact ⟨rfl, rfl, hside.symm⟩

/-- C7 witness: a concrete no-tls option set builds a config with exactly the
supplied endpoints and no side-output. -/
theorem as_sc_config_no_tls_frame_witness :
    ({ public_endpoint := "127.0.0.1:9005", private_endpoint := "127.0.0.1:9006",
       x509_auth_scopes := none, white_list := [],
       read_only_metadata := false } : ScConfig).public_endpoint =
        "127.0.0.1:9005" ∧
    ({ public_endpoint := "127.0.0.1:9005", private_endpoint := "127.0.0.1:9006",
       x509_auth_scopes := none, white_list := [],
       read_only_metadata := false } : ScConfig).private_endpoint =
        "127.0.0.1:9006" ∧
    (none : Option (String × TlsConfig)) = none :=
  as_sc_config_no_tls_frame
    { ScOpt.default with
        bind_public := some "127.0.0.1:9005",
        bind_private := some "127.0.0.1:9006" }
    "127.0.0.1:9005" "127.0.0.1:9006"
    (fun _ => Except.error ⟨ErrorKind.Other, "unused"⟩)
    rfl rfl rfl
    { public_endpoint := "127.0.0.1:9005", private_endpoint := "127.0.0.1:9006",
      x509_auth_scopes := none, white_list := [], read_only_metadata := false }
    none none rfl

/-- C1 counterexample: the claim quantifies over every option set with tls
enabled, `bind_public = "0.0.0.0:9003"` and `bind_non_tls_public =
"0.0.0.0:9004"` and asserts the build succeeds; but such an option set may
also carry an authorization-policy path, and when loading that policy file
fails the build returns the error instead of succeeding. -/
theorem as_sc_config_tls_scenario_cex :
    exceptIsOk (ScOpt.as_sc_config
      { ScOpt.default with
          bind_public := some "0.0.0.0:9003",
          auth_policy := some "/etc/fluvio/bad-policy",
          tls := { TlsConfig.default with
            tls := true, bind_non_tls_public := some "0.0.0.0:9004" } }
      (fun _ => Except.error ⟨ErrorKind.Other, "malformed policy file"⟩)) =
      false := rfl

/-- C1 (amended): for every option set with tls enabled, `bind_public`
supplied as "0.0.0.0:9003" and `bind_non_tls_public` supplied as
"0.0.0.0:9004", provided the authorization policy step resolves (no policy
path supplied, or the supplied file loads), the build succeeds; the returned
config has public endpoint "0.0.0.0:9004", the side-output proxy address is
"0.0.0.0:9003", and when no secret identifier was supplied the emitted TLS
material carries the well-known default constant. -/
theorem as_sc_config_tls_scenario (o : ScOpt)
    (load_policy : PathBuf → Except IoErr BasicRbacPolicy)
    (htls : o.tls.tls = true)
    (hpub : o.bind_public = some "0.0.0.0:9003")
    (hbind : o.tls.bind_non_tls_public = some "0.0.0.0:9004")
    (hpol : policyResolves o load_policy) :
    ∃ cfg policy tls_out,
      o.as_sc_config load_policy =
        Except.ok ((cfg, policy), some ("0.0.0.0:9003", tls_out)) ∧
      cfg.public_endpoint = "0.0.0.0:9004" ∧
      (o.tls.secret_name = none →
        tls_out.secret_name = some TLS_SERVER_SECRET_NAME) := by
  cases hpolpath : o.auth_policy with
  | none =>
    refine ⟨{ public_endpoint := "0.0.0.0:9004",
              private_endpoint :=
                o.bind_private.getD ScConfig.default.private_endpoint,
              x509_auth_scopes := o.x509_auth_scopes,
              white_list := o.white_list,
              read_only_metadata := o.read_only.isSome },
            none,
            { o.tls with
              secret_name :=
                some (o.tls.secret_name.getD TLS_SERVER_SECRET_NAME) },
            ?_, rfl, ?_⟩
    · unfold ScOpt.as_sc_config
      simp only [hpolpath, hpub, hbind, htls]
      rfl
    · intro hsec
      simp [hsec]
  | some p =>
    unfold policyResolves at hpol
    rw [hpolpath] at hpol
    cases hload : load_policy p with
    | error e =>
      simp [hload, exceptIsOk] at hpol
    | ok v =>
      refine ⟨{ public_endpoint := "0.0.0.0:9004",
                private_endpoint :=
                  o.bind_private.getD ScConfig.default.private_endpoint,
                x509_auth_scopes := o.x509_auth_scopes,
                white_list := o.white_list,
                read_only_metadata := o.read_only.isSome },
              some v,
              { o.tls with
                secret_name :=
                  some (o.tls.secret_name.getD TLS_SERVER_SECRET_NAME) },
              ?_, rfl, ?_⟩
      · unfold ScOpt.as_sc_config
        simp only [hpolpath, hload, hpub, hbind, htls, Except.map]
        rfl
      · intro hsec
        simp [hsec]

/-- C1 witness: the scenario at a concrete option set with no policy path and
no supplied secret identifier. -/
theorem as_sc_config_tls_scenario_witness :
    ∃ cfg policy tls_out,
      ScOpt.as_sc_config
        { ScOpt.default with
            bind_public := some "0.0.0.0:9003",
            tls := { TlsConfig.default with
              tls := true, bind_non_tls_public := some "0.0.0.0:9004" } }
        (fun _ => Except.error ⟨ErrorKind.Other, "unused"⟩) =
        Except.ok ((cfg, policy), some ("0.0.0.0:9003", tls_out)) ∧
      cfg.public_endpoint = "0.0.0.0:9004" ∧
      (({ ScOpt.default with
            bind_public := some "0.0.0.0:9003",
            tls := { TlsConfig.default with
              tls := true,
              bind_non_tls_public := some "0.0.0.0:9004" } } : ScOpt).tls.secret_name =
          none →
        tls_out.secret_name = some TLS_SERVER_SECRET_NAME) :=
  as_sc_config_tls_scenario
    { ScOpt.default with
        bind_public := some "0.0.0.0:9003",
        tls := { TlsConfig.default with
          tls := true, bind_non_tls_public := some "0.0.0.0:9004" } }
    (fun _ => Except.error ⟨ErrorKind.Other, "unused"⟩)
    rfl rfl rfl trivial

/-- C6: building the TLS acceptor fails naming the missing field when the
server certificate, the server key, or (in client-certificate mode) the CA
path is absent; with client-certificate mode and a CA path it succeeds with
mandatory peer verification against that CA; with client-certificate mode
disabled it succeeds in anonymous mode. -/
theorem try_build_tls_acceptor_spec (c : TlsConfig) :
    (c.server_cert = none →
      c.try_build_tls_acceptor =
        Except.error ⟨ErrorKind.NotFound, "missing server cert"⟩) ∧
    (∀ crt, c.server_cert = some crt → c.server_key = none →
      c.try_build_tls_acceptor =
        Except.error ⟨ErrorKind.NotFound, "missing server key"⟩) ∧
    (∀ crt key, c.server_cert = some crt → c.server_key = some key →
      c.enable_client_cert = true → c.ca_cert = none →
      c.try_build_tls_acceptor =
        Except.error ⟨ErrorKind.NotFound, "missing ca cert"⟩) ∧
    (∀ crt key ca, c.server_cert = some crt → c.server_key = some key →
      c.enable_client_cert = true → c.ca_cert = some ca →
      c.try_build_tls_acceptor =
        Except.ok ⟨⟨SslVerifyMode.PEER, some ca, some crt, some key⟩⟩) ∧
    (∀ crt key, c.server_cert = some crt → c.server_key = some key →
      c.enable_client_cert = false →
      c.try_build_tls_acceptor =
        Except.ok ⟨⟨SslVerifyMode.NONE, none, some crt, some key⟩⟩) := by
  refine ⟨?_, ?_, ?_, ?_, ?_⟩
  · intro h
    unfold TlsConfig.try_build_tls_acceptor
    simp only [h]
  · intro crt h1 h2
    unfold TlsConfig.try_build_tls_acceptor
    simp only [h1, h2]
  · intro crt key h1 h2 h3 h4
    unfold TlsConfig.try_build_tls_acceptor
    simp only [h1, h2, h3, h4]
    rfl
  · intro crt key ca h1 h2 h3 h4
    unfold TlsConfig.try_build_tls_acceptor
    simp only [h1, h2, h3, h4]
    rfl
  · intro crt key h1 h2 h3
    unfold TlsConfig.try_build_tls_acceptor
    simp only [h1, h2, h3]
    rfl

/-- C6 witness: the five cases at concrete TLS material. -/
theorem try_build_tls_acceptor_spec_witness :
    TlsConfig.try_build_tls_acceptor
        { tls := true, server_cert := none, server_key := none,
          enable_client_cert := false, ca_cert := none,
          bind_non_tls_public := none, secret_name := none } =
      Except.error ⟨ErrorKind.NotFound, "missing server cert"⟩ ∧
    TlsConfig.try_build_tls_acceptor
        { tls := true, server_cert := some "server.crt", server_key := none,
          enable_client_cert := false, ca_cert := none,
          bind_non_tls_public := none, secret_name := none } =
      Except.error ⟨ErrorKind.NotFound, "missing server key"⟩ ∧
    TlsConfig.try_build_tls_acceptor
        { tls := true, server_cert := some "server.crt",
          server_key := some "server.key", enable_client_cert := true,
          ca_cert := none, bind_non_tls_public := none, secret_name := none } =
      Except.error ⟨ErrorKind.NotFound, "missing ca cert"⟩ ∧
    TlsConfig.try_build_tls_acceptor
        { tls := true, server_cert := some "server.crt",
          server_key := some "server.key", enable_client_cert := true,
          ca_cert := some "ca.crt", bind_non_tls_public := none,
          secret_name := none } =
      Except.ok ⟨⟨SslVerifyMode.PEER, some "ca.crt", some "server.crt",
        some "server.key"⟩⟩ ∧
    TlsConfig.try_build_tls_acceptor
        { tls := true, server_cert := some "server.crt",
          server_key := some "server.key", enable_client_cert := false,
          ca_cert := none, bind_non_tls_public := none, secret_name := none } =
      Except.ok ⟨⟨SslVerifyMode.NONE, none, some "server.crt",
        some "server.key"⟩⟩ :=
  ⟨(try_build_tls_acceptor_spec
      { tls := true, server_cert := none, server_key := none,
        enable_client_cert := false, ca_cert := none,
        bind_non_tls_public := none, secret_name := none }).1 rfl,
   (try_build_tls_acceptor_spec
      { tls := true, server_cert := some "server.crt", server_key := none,
        enable_client_cert := false, ca_cert := none,
        bind_non_tls_public := none, secret_name := none }).2.1
     "server.crt" rfl rfl,
   (try_build_tls_acceptor_spec
      { tls := true, server_cert := some "server.crt",
        server_key := some "server.key", enable_client_cert := true,
        ca_cert := none, bind_non_tls_public := none,
        secret_name := none }).2.2.1 "server.crt" "server.key" rfl rfl rfl rfl,
   (try_build_tls_acceptor_spec
      { tls := true, server_cert := some "server.crt",
        server_key := some "server.key", enable_client_cert := true,
        ca_cert := some "ca.crt", bind_non_tls_public := none,
        secret_name := none }).2.2.2.1 "server.crt" "server.key" "ca.crt"
     rfl rfl rfl rfl,
   (try_build_tls_acceptor_spec
      { tls := true, server_cert := some "server.crt",
        server_key := some "server.key", enable_client_cert := false,
        ca_cert := none, bind_non_tls_public := none,
        secret_name := none }).2.2.2.2 "server.crt" "server.key" rfl rfl rfl⟩

/-- C10: the acceptor build outcome depends only on the server certificate
path, server key path, client-certificate flag and CA path; two configs
agreeing on those four fields build identically, whatever their tls enable
flag, non-tls bind address, or secret identifier — and in particular an
acceptor builds even with the tls flag disabled. -/
theorem try_build_tls_acceptor_depends_only (c1 c2 : TlsConfig)
    (h1 : c1.server_cert = c2.server_cert)
    (h2 : c1.server_key = c2.server_key)
    (h3 : c1.enable_client_cert = c2.enable_client_cert)
    (h4 : c1.ca_cert = c2.ca_cert) :
    c1.try_build_tls_acceptor = c2.try_build_tls_acceptor ∧
    exceptIsOk (TlsConfig.try_build_tls_acceptor
      { tls := false, server_cert := some "server.crt",
        server_key := some "server.key", enable_client_cert := false,
        ca_cert := none, bind_non_tls_public := none,
        secret_name := none }) = true := by
  constructor
  · obtain ⟨t1, sc1, sk1, ec1, ca1, b1, s1⟩ := c1
    obtain ⟨t2, sc2, sk2, ec2, ca2, b2, s2⟩ := c2
    dsimp only at h1 h2 h3 h4
    subst h1 h2 h3 h4
    rfl
  · rfl

/-- C10 witness: two concrete configs differing only in the tls flag, the
non-tls bind address and the secret identifier build identically. -/
theorem try_build_tls_acceptor_depends_only_witness :
    TlsConfig.try_build_tls_acceptor
        { tls := false, server_cert := some "server.crt",
          server_key := some "server.key", enable_client_cert := true,
          ca_cert := some "ca.crt", bind_non_tls_public := none,
          secret_name := none } =
      TlsConfig.try_build_tls_acceptor
        { tls := true, server_cert := some "server.crt",
          server_key := some "server.key", enable_client_cert := true,
          ca_cert := some "ca.crt",
          bind_non_tls_public := some "0.0.0.0:9004",
          secret_name := some "custom-secret" } ∧
    exceptIsOk (TlsConfig.try_build_tls_acceptor
      { tls := false, server_cert := some "server.crt",
        server_key := some "server.key", enable_client_cert := false,
        ca_cert := none, bind_non_tls_public := none,
        secret_name := none }) = true :=
  try_build_tls_acceptor_depends_only
    { tls := false, server_cert := some "server.crt",
      server_key := some "server.key", enable_client_cert := true,
      ca_cert := some "ca.crt", bind_non_tls_public := none,
      secret_name := none }
    { tls := true, server_cert := some "server.crt",
      server_key := some "server.key", enable_client_cert := true,
      ca_cert := some "ca.crt", bind_non_tls_public := some "0.0.0.0:9004",
      secret_name := some "custom-secret" }
    rfl rfl rfl rfl

/-- C4: plugin lookup returns the first existing match in the fixed stage
order — system search path, then the running executable directory, then the
per-user extensions directory — a stage-1 match pre-empting the later stages;
with no match at any stage the result is the empty option (the return type is
an option, not an error). -/
theorem find_plugin_stage_order (name : String)
    (whch : String → Option PathBuf)
    (whch_in : String → PathBuf → Option PathBuf)
    (self_dir ext_dir : Option PathBuf) :
    (∀ p, whch name = some p →
      find_plugin name whch whch_in self_dir ext_dir = some p) ∧
    (∀ p, whch name = none → self_dir.bind (whch_in name) = some p →
      find_plugin name whch whch_in self_dir ext_dir = some p) ∧
    (∀ p, whch name = none → self_dir.bind (whch_in name) = none →
      ext_dir.bind (whch_in name) = some p →
      find_plugin name whch whch_in self_dir ext_dir = some p) ∧
    (whch name = none → self_dir.bind (whch_in name) = none →
      ext_dir.bind (whch_in name) = none →
      find_plugin name whch whch_in self_dir ext_dir = none) := by
  refine ⟨?_, ?_, ?_, ?_⟩
  · intro p h
    simp [find_plugin, h, Option.orElse]
  · intro p h1 h2
    simp [find_plugin, h1, h2, Option.orElse]
  · intro p h1 h2 h3
    simp [find_plugin, h1, h2, h3, Option.orElse]
  · intro h1 h2 h3
    simp [find_plugin, h1, h2, h3, Option.orElse]

/-- C4 witness: a stage-1 hit and an all-stages miss at concrete search
environments. -/
theorem find_plugin_stage_order_witness :
    find_plugin "fluvio-hit" (fun _ => some "/usr/bin/fluvio-hit")
        (fun _ _ => none) (some "/opt/fluvio") (some "/root/.fluvio/extensions") =
      some "/usr/bin/fluvio-hit" ∧
    find_plugin "fluvio-miss" (fun _ => none) (fun _ _ => none)
        (some "/opt/fluvio") (some "/root/.fluvio/extensions") = none :=
  ⟨(find_plugin_stage_order "fluvio-hit" (fun _ => some "/usr/bin/fluvio-hit")
      (fun _ _ => none) (some "/opt/fluvio")
      (some "/root/.fluvio/extensions")).1 "/usr/bin/fluvio-hit" rfl,
   (find_plugin_stage_order "fluvio-miss" (fun _ => none) (fun _ _ => none)
      (some "/opt/fluvio") (some "/root/.fluvio/extensions")).2.2.2
     rfl rfl rfl⟩

/-- C5: for an external command whose first token is `cmd`, the router
consults the plugin lookup at exactly the name `"fluvio-" ++ cmd`: the
outcome depends only on the lookup value at that one name (two lookups that
agree there dispatch identically), a miss at that name is the not-found path,
and a hit at that name launches exactly the path found there. -/
theorem process_external_lookup_name (cmd : String) (rest : List String)
    (find find' : String → Option PathBuf)
    (ext_dir_res : Except IoErr PathBuf)
    (run : PathBuf → List String → Except IoErr ExitStatus) :
    (find' ("fluvio-" ++ cmd) = find ("fluvio-" ++ cmd) →
      process_external_subcommand (cmd :: rest) find' ext_dir_res run =
        process_external_subcommand (cmd :: rest) find ext_dir_res run) ∧
    (find ("fluvio-" ++ cmd) = none →
      ∃ msg, process_external_subcommand (cmd :: rest) find ext_dir_res run =
        DispatchOutcome.notFound msg 1) ∧
    (∀ path, find ("fluvio-" ++ cmd) = some path →
      process_external_subcommand (cmd :: rest) find ext_dir_res run =
        wait_and_exit (run path rest)) := by
  refine ⟨?_, ?_, ?_⟩
  · intro h
    unfold process_external_subcommand
    simp only [h]
  · intro h
    unfold process_external_subcommand
    simp only [h]
    cases ext_dir_res with
    | ok d => exact ⟨_, rfl⟩
    | error e => exact ⟨_, rfl⟩
  · intro path h
    unfold process_external_subcommand
    simp only [h]

/-- C5 witness: two lookups agreeing at "fluvio-topic" dispatch identically,
a miss is the not-found outcome, and a hit launches the found path. -/
theorem process_external_lookup_name_witness :
    process_external_subcommand ["topic"]
        (fun n => if n = "fluvio-topic" then some "/plugins/fluvio-topic"
          else none)
        (Except.ok "/root/.fluvio/extensions")
        (fun _ _ => Except.ok ⟨some 0, none⟩) =
      process_external_subcommand ["topic"]
        (fun _ => some "/plugins/fluvio-topic")
        (Except.ok "/root/.fluvio/extensions")
        (fun _ _ => Except.ok ⟨some 0, none⟩) ∧
    (∃ msg, process_external_subcommand ["nosuch"] (fun _ => none)
        (Except.ok "/root/.fluvio/extensions")
        (fun _ _ => Except.ok ⟨some 0, none⟩) =
      DispatchOutcome.notFound msg 1) ∧
    process_external_subcommand ["topic"]
        (fun _ => some "/plugins/fluvio-topic")
        (Except.ok "/root/.fluvio/extensions")
        (fun _ _ => Except.ok ⟨some 0, none⟩) =
      wait_and_exit ((fun _ _ => Except.ok ⟨some 0, none⟩ :
        PathBuf → List String → Except IoErr ExitStatus)
        "/plugins/fluvio-topic" []) :=
  ⟨(process_external_lookup_name "topic" []
      (fun _ => some "/plugins/fluvio-topic")
      (fun n => if n = "fluvio-topic" then some "/plugins/fluvio-topic"
        else none)
      (Except.ok "/root/.fluvio/extensions")
      (fun _ _ => Except.ok ⟨some 0, none⟩)).1 (by decide),
   (process_external_lookup_name "nosuch" [] (fun _ => none) (fun _ => none)
      (Except.ok "/root/.fluvio/extensions")
      (fun _ _ => Except.ok ⟨some 0, none⟩)).2.1 rfl,
   (process_external_lookup_name "topic" []
      (fun _ => some "/plugins/fluvio-topic")
      (fun _ => some "/plugins/fluvio-topic")
      (Except.ok "/root/.fluvio/extensions")
      (fun _ _ => Except.ok ⟨some 0, none⟩)).2.2 "/plugins/fluvio-topic" rfl⟩

/-- C8: when the dispatched plugin terminates by a signal (exit code absent,
signal present, as unix exposes it), the dispatcher's outcome is the signaled
descriptor: the printed diagnostic names the signal number and the parent
adopts the signal number as its own exit code; the outcome is not an error
return. -/
theorem process_external_signal_exit (cmd : String) (rest : List String)
    (find : String → Option PathBuf) (ext_dir_res : Except IoErr PathBuf)
    (run : PathBuf → List String → Except IoErr ExitStatus)
    (path : PathBuf) (s : Int)
    (hf : find ("fluvio-" ++ cmd) = some path)
    (hr : run path rest = Except.ok ⟨none, some s⟩) :
    process_external_subcommand (cmd :: rest) find ext_dir_res run =
      DispatchOutcome.signaled
        ("Extension killed via " ++ toString s ++ " signal") s ∧
    DispatchOutcome.isError
      (process_external_subcommand (cmd :: rest) find ext_dir_res run) =
      false := by
  have key : process_external_subcommand (cmd :: rest) find ext_dir_res run =
      DispatchOutcome.signaled
        ("Extension killed via " ++ toString s ++ " signal") s := by
    unfold process_external_subcommand
    simp only [hf, hr]
    rfl
  exact ⟨key, by rw [key]; rfl⟩

/-- C8 witness: a plugin killed by signal 9 yields the signaled descriptor
with exit code 9 and is not an error. -/
theorem process_external_signal_exit_witness :
    process_external_subcommand ["topic"] (fun _ => some "/plugins/fluvio-topic")
        (Except.ok "/root/.fluvio/extensions")
        (fun _ _ => Except.ok ⟨none, some 9⟩) =
      DispatchOutcome.signaled
        ("Extension killed via " ++ toString (9 : Int) ++ " signal") 9 ∧
    DispatchOutcome.isError
      (process_external_subcommand ["topic"]
        (fun _ => some "/plugins/fluvio-topic")
        (Except.ok "/root/.fluvio/extensions")
        (fun _ _ => Except.ok ⟨none, some 9⟩)) = false :=
  process_external_signal_exit "topic" [] (fun _ => some "/plugins/fluvio-topic")
    (Except.ok "/root/.fluvio/extensions")
    (fun _ _ => Except.ok ⟨none, some 9⟩) "/plugins/fluvio-topic" 9 rfl rfl

/-- C9 counterexample: the claim says a failed load of the external cluster
configuration makes the build return the configuration error; in the source
the load is followed by `.expect("no k8 config founded")`, so the build
panics (aborts the process) and never returns an `ScError` value. -/
theorem get_sc_and_k8_config_load_failure_cex :
    ScOpt.get_sc_and_k8_config ScOpt.default none
        (fun _ => Except.error ⟨ErrorKind.Other, "io error"⟩) =
      K8ConfigOutcome.panicked "no k8 config founded" ∧
    K8ConfigOutcome.isScErr
      (ScOpt.get_sc_and_k8_config ScOpt.default none
        (fun _ => Except.error ⟨ErrorKind.Other, "io error"⟩)) = false :=
  ⟨rfl, rfl⟩

/-- C9 (amended): in the cluster-targeted build variant, when no namespace is
explicitly supplied the namespace is resolved from the loaded kubernetes
configuration (and a supplied one is kept); when that configuration cannot be
loaded the build panics with "no k8 config founded" — it neither returns a
configuration-error value nor produces a config. -/
theorem get_sc_and_k8_config_spec (o : ScOpt) (k8c : K8Config)
    (load_policy : PathBuf → Except IoErr BasicRbacPolicy) :
    (o.«namespace» = none →
      (o.resolve_namespace k8c).«namespace» = some k8c.«namespace») ∧
    (∀ n, o.«namespace» = some n →
      (o.resolve_namespace k8c).«namespace» = some n) ∧
    ScOpt.get_sc_and_k8_config o none load_policy =
      K8ConfigOutcome.panicked "no k8 config founded" ∧
    K8ConfigOutcome.isScErr (ScOpt.get_sc_and_k8_config o none load_policy) =
      false ∧
    K8ConfigOutcome.producedConfig
      (ScOpt.get_sc_and_k8_config o none load_policy) = false := by
  refine ⟨?_, ?_, rfl, rfl, rfl⟩
  · intro h
    unfold ScOpt.resolve_namespace
    simp [h]
  · intro n h
    unfold ScOpt.resolve_namespace
    simp [h]

/-- C9 witness: at concrete inputs, an absent namespace is filled from the
kubernetes config, and a failed load is the panic outcome. -/
theorem get_sc_and_k8_config_spec_witness :
    (ScOpt.resolve_namespace ScOpt.default ⟨"default-ns"⟩).«namespace» =
      some "default-ns" ∧
    ScOpt.get_sc_and_k8_config ScOpt.default none
        (fun _ => Except.error ⟨ErrorKind.Other, "unused"⟩) =
      K8ConfigOutcome.panicked "no k8 config founded" :=
  ⟨(get_sc_and_k8_config_spec ScOpt.default ⟨"default-ns"⟩
      (fun _ => Except.error ⟨ErrorKind.Other, "unused"⟩)).1 rfl,
   (get_sc_and_k8_config_spec ScOpt.default ⟨"default-ns"⟩
      (fun _ => Except.error ⟨ErrorKind.Other, "unused"⟩)).2.2.1⟩
